import Mathlib

/-
Shallow embedding of the gods-health-ai risk-assessment pipeline.

The embedding translates, from the repository source:
  - backend/predictors/base_predictor.py   (class BasePredictor): input
    validation, risk-level classification, risk-factor analysis,
    recommendation composition, confidence estimation, chart/visualization
    assembly and the predict pipeline;
  - backend/predictors/disease_predictors.py: the HeartDiseasePredictor
    schema and preprocessing, and the weight-table override pattern of
    calculate_field_risk_contribution;
  - backend/predictors.py (the legacy flat module, shadowed by the
    predictors package at import time): its HeartDiseasePredictor.predict;
  - backend/app.py: the /predict response assembly (make_prediction).

Python floats are modelled as rationals (ℚ); Python dicts as
insertion-ordered association lists with unique keys; raw record values as
the JSON-transported value kinds (numbers, booleans, strings — the spec's
RawRecord).  The model output of the sklearn fallback estimator and the
np.random draw in generate_population_comparison are explicit parameters.
-/

namespace GodsHealth

/-- A caller-supplied record value: the value kinds a JSON body can carry
into the Flask layer (int, float, bool, str).  Matches the RawRecord data
model (numbers, booleans, strings). -/
inductive Value where
  | vInt (n : Int)
  | vFloat (q : ℚ)
  | vBool (b : Bool)
  | vStr (s : String)
deriving DecidableEq, Repr, Inhabited

/-- Python truthiness of a record value (`if smoking:` etc.). -/
def pyTruthy : Value → Bool
  | .vInt n => n ≠ 0
  | .vFloat q => q ≠ 0
  | .vBool b => b
  | .vStr s => s ≠ ""

/-- Numeric reading of a value, as Python arithmetic sees it
(`True` counts as 1, `False` as 0).  Strings read as 0 here; the embedded
code only applies this to values that are numeric at that point. -/
def pyNum : Value → ℚ
  | .vInt n => (n : ℚ)
  | .vFloat q => q
  | .vBool b => if b then 1 else 0
  | .vStr _ => 0

/-- Python `str()` of a record value (float rendering is modelled by the
rational printer; no claim depends on it). -/
def pyStr : Value → String
  | .vStr s => s
  | .vInt n => toString n
  | .vBool b => if b then "True" else "False"
  | .vFloat q => toString q

/-- Digits of a decimal literal folded to a natural number. -/
def digitsToNat (cs : List Char) : Nat :=
  cs.foldl (fun a c => a * 10 + (c.toNat - 48)) 0

/-- Magnitude part of Python `float(s)` on a plain decimal literal:
`digits`, `digits.digits`, `digits.` or `.digits`. -/
def parseFloatMag (cs : List Char) : Option ℚ :=
  let ip := cs.takeWhile (fun c => c ≠ '.')
  let rest := cs.dropWhile (fun c => c ≠ '.')
  match rest with
  | [] =>
      if ip ≠ [] ∧ ip.all Char.isDigit then some ((digitsToNat ip : ℚ)) else none
  | _ :: fp =>
      if (ip ≠ [] ∨ fp ≠ []) ∧ ip.all Char.isDigit ∧ fp.all Char.isDigit ∧
          fp.all (fun c => c ≠ '.')
      then some ((digitsToNat ip : ℚ) + (digitsToNat fp : ℚ) / ((10 : ℚ) ^ fp.length))
      else none

/-- Optional sign of a numeric literal: returns (negative, remaining chars). -/
def parseSign : List Char → Bool × List Char
  | '-' :: cs => (true, cs)
  | '+' :: cs => (false, cs)
  | cs => (false, cs)

/-- Model of the Python builtin `float` applied to a string: parses a
signed decimal literal, `none` when the string is not numeric (the
builtin then raises ValueError). -/
def parseFloat (s : String) : Option ℚ :=
  let (neg, cs) := parseSign s.toList
  (parseFloatMag cs).map (fun q => if neg then -q else q)

/-- Model of the Python builtin `int` applied to a string: a signed run of
digits; anything else (including a float literal like "2.5") raises. -/
def parseIntStr (s : String) : Option Int :=
  let (neg, cs) := parseSign s.toList
  if cs ≠ [] ∧ cs.all Char.isDigit then
    some (if neg then -(digitsToNat cs : Int) else (digitsToNat cs : Int))
  else none

/-- Python `int()` of a float: truncation toward zero (on a reduced
fraction, T-division of the numerator by the denominator). -/
def ratTrunc (q : ℚ) : Int :=
  q.num.tdiv q.den

/-- Floor of a rational, written on the reduced fraction so that it
evaluates on concrete inputs (F-division of numerator by denominator). -/
def ratFloorI (q : ℚ) : Int :=
  q.num.fdiv q.den

/-- Round to the nearest integer, ties to even (Python round / format). -/
def roundHalfEven (x : ℚ) : Int :=
  let f := ratFloorI x
  let d := x - (f : ℚ)
  if d < 1/2 then f
  else if (1:ℚ)/2 < d then f + 1
  else if f % 2 = 0 then f else f + 1

/-- Python `round(x, 3)`. -/
def pyRound3 (q : ℚ) : ℚ :=
  ((roundHalfEven (q * 1000) : ℚ)) / 1000

/-- Python `f"{x:.1%}"` for a non-negative x (risk scores are clamped to
[0,1] before being formatted). -/
def fmtPercent1 (q : ℚ) : String :=
  let r := roundHalfEven (q * 1000)
  toString (Int.ediv r 10) ++ "." ++ toString (Int.emod r 10) ++ "%"

/-- `data[f]` lookup in an insertion-ordered record (Python dict read). -/
def lookupField : List (String × Value) → String → Option Value
  | [], _ => none
  | p :: rest, f => if p.1 = f then some p.2 else lookupField rest f

/-- `data.get(f, d)` with a value default. -/
def pyGet (data : List (String × Value)) (f : String) (d : Value) : Value :=
  (lookupField data f).getD d

/-- `data.get(f, d)` read numerically with a numeric default. -/
def pyGetNum (data : List (String × Value)) (f : String) (d : ℚ) : ℚ :=
  match lookupField data f with
  | some v => pyNum v
  | none => d

/-- In-place overwrite `data[f] = v` of a key that is already present
(dict update: position and other keys unchanged). -/
def setField (data : List (String × Value)) (f : String) (v : Value) :
    List (String × Value) :=
  data.map (fun p => if p.1 = f then (p.1, v) else p)

/-- `data[k] = v` in general: overwrite when the key exists, append
otherwise (dicts keep insertion order). -/
def dictInsert (data : List (String × Value)) (k : String) (v : Value) :
    List (String × Value) :=
  if (lookupField data k).isSome then setField data k v
  else data ++ [(k, v)]

/-- String-map lookup (`m.get(f)`), used for field descriptions. -/
def lookupStr (m : List (String × String)) (f : String) : Option String :=
  (m.find? (fun p => p.1 = f)).map (·.2)

/-- The ValueError raised by BasePredictor.validate_input, by message kind:
"Missing required field: f", "Field f must be a number",
"Field f must be an integer". -/
inductive ValidationError where
  | missingField (f : String)
  | mustBeNumber (f : String)
  | mustBeInteger (f : String)
deriving DecidableEq, Repr

/-- Rendering of a ValidationError as the exact message string the source
raises. -/
def ValidationError.message : ValidationError → String
  | .missingField f => "Missing required field: " ++ f
  | .mustBeNumber f => "Field " ++ f ++ " must be a number"
  | .mustBeInteger f => "Field " ++ f ++ " must be an integer"

/-- Outcome of the per-field body of validate_input: leave the stored
value untouched (the isinstance check passed), overwrite it with a coerced
value, or raise. -/
inductive CoerceOutcome where
  | keep
  | coerced (v : Value)
  | notNumber
  | notInteger
deriving DecidableEq, Repr

/-- The type-validation body of BasePredictor.validate_input for one field
(base_predictor.py lines 45-58).  `isinstance(x, (int, float))` is true
for Python bools (bool subclasses int), so vBool passes the numeric
checks untouched. -/
def coerceValue (t : String) (v : Value) : CoerceOutcome :=
  if t = "float" then
    match v with
    | .vInt _ | .vFloat _ | .vBool _ => .keep
    | .vStr s =>
      match parseFloat s with
      | some q => .coerced (.vFloat q)
      | none => .notNumber
  else if t = "int" then
    match v with
    | .vInt _ | .vBool _ => .keep
    | .vFloat q => .coerced (.vInt (ratTrunc q))
    | .vStr s =>
      match parseIntStr s with
      | some n => .coerced (.vInt n)
      | none => .notInteger
  else if t = "str" then
    match v with
    | .vStr _ => .keep
    | _ => .coerced (.vStr (pyStr v))
  else .keep

/-- A value already of the declared primitive type, so that the isinstance
checks of validate_input pass and no write-back into the dict happens
(Python bools satisfy isinstance(_, int)). -/
def typeMatches (t : String) (v : Value) : Bool :=
  if t = "float" then
    match v with
    | .vInt _ | .vFloat _ | .vBool _ => true
    | .vStr _ => false
  else if t = "int" then
    match v with
    | .vInt _ | .vBool _ => true
    | .vFloat _ | .vStr _ => false
  else if t = "str" then
    match v with
    | .vStr _ => true
    | _ => false
  else true

/-- A value validate_input accepts for the declared type, possibly after
coercion (the claims' notion of a coercible value). -/
def coercibleValue (t : String) (v : Value) : Bool :=
  match coerceValue t v with
  | .notNumber => false
  | .notInteger => false
  | _ => true

namespace BasePredictor

/-- BasePredictor.validate_input (base_predictor.py lines 38-60).  The
Python method mutates the caller's dict in place (`data[field] = ...`) and
returns True; the embedding returns the dict as left behind on success, or
the ValueError raised.  Fields are processed in schema order; processing
stops at the first missing field or failed coercion. -/
def validate_input :
    List (String × String) → List (String × Value) →
    Except ValidationError (List (String × Value))
  | [], data => .ok data
  | (f, t) :: rest, data =>
    match lookupField data f with
    | none => .error (.missingField f)
    | some v =>
      match coerceValue t v with
      | .keep => validate_input rest data
      | .coerced w => validate_input rest (setField data f w)
      | .notNumber => .error (.mustBeNumber f)
      | .notInteger => .error (.mustBeInteger f)

/-- BasePredictor.calculate_risk_level (base_predictor.py lines 62-71). -/
def calculate_risk_level (risk_score : ℚ) : String :=
  if risk_score < 0.3 then "Low"
  else if risk_score < 0.6 then "Moderate"
  else if risk_score < 0.8 then "High"
  else "Very High"

/-- BasePredictor.get_recommendations (base_predictor.py lines 73-105):
the fixed bank of level-specific generic advice. -/
def get_recommendations (_risk_score : ℚ) (risk_level : String)
    (_data : List (String × Value)) : List String :=
  if risk_level = "Low" then
    ["Maintain your current healthy lifestyle",
     "Continue regular check-ups with your healthcare provider",
     "Stay physically active and eat a balanced diet"]
  else if risk_level = "Moderate" then
    ["Consider lifestyle modifications to reduce risk",
     "Schedule more frequent health screenings",
     "Consult with your healthcare provider about prevention strategies",
     "Monitor relevant health metrics regularly"]
  else if risk_level = "High" then
    ["Seek immediate consultation with a healthcare professional",
     "Consider comprehensive health screening",
     "Implement significant lifestyle changes",
     "Follow up with specialist if recommended"]
  else
    ["Urgent medical consultation recommended",
     "Comprehensive diagnostic testing may be needed",
     "Consider immediate lifestyle interventions",
     "Follow all medical advice strictly"]

/-- One entry of the risk_factors list built by analyze_risk_factors
(base_predictor.py lines 132-138). -/
structure RiskFactor where
  factor : String
  value : Value
  risk_level : String
  contribution_score : ℚ
  explanation : String
deriving DecidableEq, Repr, Inhabited

/-- BasePredictor.calculate_field_risk_contribution (base_predictor.py
lines 271-274): the default heuristic used by every domain that does not
override the hook. -/
def calculate_field_risk_contribution (_field_name : String) (_value : Value)
    (normalized_value : ℚ) : ℚ :=
  |normalized_value - 0.5| * 2

/-- BasePredictor.categorize_field_risk (base_predictor.py lines 276-285). -/
def categorize_field_risk (contribution : ℚ) : String :=
  if contribution < 0.2 then "Low"
  else if contribution < 0.5 then "Moderate"
  else if contribution < 0.8 then "High"
  else "Very High"

/-- BasePredictor.explain_field_risk (base_predictor.py lines 287-290). -/
def explain_field_risk (field_name : String) (value : Value) : String :=
  "The value " ++ pyStr value ++ " for " ++ field_name ++
    " contributes to the overall risk assessment."

/-- Stable insertion of a factor into a list already sorted by descending
contribution_score: the inserted element (originally earlier) goes before
later elements of equal score. -/
def insertDesc (x : RiskFactor) : List RiskFactor → List RiskFactor
  | [] => [x]
  | y :: ys =>
    if x.contribution_score < y.contribution_score then y :: insertDesc x ys
    else x :: y :: ys

/-- The stable descending sort performed by
`risk_factors.sort(key=..., reverse=True)` (base_predictor.py line 141);
Python sorts are stable, so equal scores keep list (schema) order. -/
def sortByContributionDesc (l : List RiskFactor) : List RiskFactor :=
  l.foldr insertDesc []

/-- BasePredictor.analyze_risk_factors (base_predictor.py lines 118-142),
parameterized by the pieces the method reaches through `self`: the
schema (get_required_fields), the field descriptions, and the two
overridable hooks calculate_field_risk_contribution / explain_field_risk.
The enumerate loop guarded by `i < len(processed_data)` pairs schema
entries with feature-vector entries; `data.get(field_name, 0)` defaults
the raw value to the int 0. -/
def analyze_risk_factors (required : List (String × String))
    (descriptions : List (String × String))
    (contrib : String → Value → ℚ → ℚ)
    (explainF : String → Value → String)
    (data : List (String × Value)) (processed_data : List ℚ) :
    List RiskFactor :=
  let risk_factors := (required.zip processed_data).filterMap
    (fun pr =>
      let field_name := pr.1.1
      let value := pyGet data field_name (.vInt 0)
      let normalized_value := pr.2
      let risk_contribution := contrib field_name value normalized_value
      if risk_contribution > 0.1 then
        some { factor := (lookupStr descriptions field_name).getD field_name
               value := value
               risk_level := categorize_field_risk risk_contribution
               contribution_score := risk_contribution
               explanation := explainF field_name value }
      else none)
  (sortByContributionDesc risk_factors).take 10

/-- BasePredictor.get_factor_specific_recommendation (base_predictor.py
lines 292-295); always a non-empty (truthy) string. -/
def get_factor_specific_recommendation (factor : RiskFactor) : String :=
  "Address the " ++ factor.factor ++ " to reduce risk."

/-- BasePredictor.get_lifestyle_recommendations (base_predictor.py
lines 297-306). -/
def get_lifestyle_recommendations (_data : List (String × Value))
    (risk_score : ℚ) : List String :=
  if risk_score > 0.5 then
    ["Implement a heart-healthy diet rich in fruits and vegetables",
     "Establish a regular exercise routine (150 minutes/week moderate activity)",
     "Practice stress management techniques like meditation or yoga"]
  else []

/-- BasePredictor.get_monitoring_recommendations (base_predictor.py
lines 308-317). -/
def get_monitoring_recommendations (risk_level : String)
    (_risk_factors : List RiskFactor) : List String :=
  if risk_level = "High" ∨ risk_level = "Very High" then
    ["Schedule regular follow-up appointments with your healthcare provider",
     "Monitor key health metrics daily or weekly as advised",
     "Keep a health diary to track symptoms and improvements"]
  else []

/-- BasePredictor.get_enhanced_recommendations (base_predictor.py
lines 144-166): generic advice, then factor-specific advice for the top 5
factors skipping duplicates, then lifestyle and monitoring advice,
truncated to 15. -/
def get_enhanced_recommendations (risk_score : ℚ) (risk_level : String)
    (data : List (String × Value)) (risk_factors : List RiskFactor) :
    List String :=
  let base := get_recommendations risk_score risk_level data
  let withSpecific := (risk_factors.take 5).foldl
    (fun acc f =>
      let specific_rec := get_factor_specific_recommendation f
      if specific_rec ∉ acc then acc ++ [specific_rec] else acc) base
  let withLifestyle := withSpecific ++ get_lifestyle_recommendations data risk_score
  let withMonitoring := withLifestyle ++ get_monitoring_recommendations risk_level risk_factors
  withMonitoring.take 15

/-- `v is not None and v != ''` on a record value (None is not a JSON
record value, so the non-empty test reduces to not being the empty
string; the ints 0 and False both compare unequal to '' in Python and so
count as provided). -/
def nonEmptyValue (v : Value) : Bool :=
  v ≠ .vStr ""

/-- `len([v for v in data.values() if v is not None and v != ''])`
(base_predictor.py line 174). -/
def providedCount (data : List (String × Value)) : Nat :=
  (data.filter (fun p => nonEmptyValue p.2)).length

/-- The completeness ratio of BasePredictor.calculate_confidence
(base_predictor.py lines 173-175): non-empty values of the supplied dict
over the number of schema-required fields. -/
def completeness_factor (required : List (String × String))
    (data : List (String × Value)) : ℚ :=
  (providedCount data : ℚ) / (required.length : ℚ)

/-- BasePredictor.calculate_confidence (base_predictor.py lines 168-184). -/
def calculate_confidence (required : List (String × String))
    (data : List (String × Value)) (risk_score : ℚ)
    (risk_factors : List RiskFactor) : ℚ :=
  let base_confidence : ℚ := 0.75
  let certainty_factor : ℚ := 1 - |(0.5 : ℚ) - risk_score| * 2
  let risk_factor_confidence : ℚ := min 1 ((risk_factors.length : ℚ) / 5)
  let confidence := base_confidence *
    (0.4 * completeness_factor required data + 0.4 * certainty_factor +
      0.2 * risk_factor_confidence)
  min 0.95 (max 0.60 confidence)

/-- BasePredictor.get_risk_color (base_predictor.py lines 319-328). -/
def get_risk_color (contribution : ℚ) : String :=
  if contribution < 0.2 then "#22c55e"
  else if contribution < 0.5 then "#eab308"
  else if contribution < 0.8 then "#f97316"
  else "#ef4444"

/-- One band of the risk gauge (base_predictor.py lines 191-197);
fromPct/toPct stand for the JSON keys "from"/"to". -/
structure GaugeRange where
  fromPct : ℚ
  toPct : ℚ
  color : String
  label : String
deriving DecidableEq, Repr, Inhabited

/-- BasePredictor.generate_health_metrics_chart (base_predictor.py
lines 330-333): the base class returns empty series. -/
structure HealthMetricsChart where
  labels : List String
  data : List ℚ
  normal_ranges : List ℚ
deriving DecidableEq, Repr, Inhabited

def generate_health_metrics_chart (_data : List (String × Value)) :
    HealthMetricsChart :=
  { labels := [], data := [], normal_ranges := [] }

/-- The dict returned by BasePredictor.generate_population_comparison
(base_predictor.py lines 335-345). -/
structure PopulationComparison where
  user_risk : ℚ
  age_group_average : ℚ
  population_average : ℚ
  age_group : String
deriving DecidableEq, Repr, Inhabited

/-- BasePredictor.generate_population_comparison (base_predictor.py
lines 335-345).  The source computes
`max(10, min(90, (age - 20) * 1.5 + np.random.normal(0, 5)))`; the fresh
normal draw is the explicit `noise` parameter, so the embedding exposes
exactly how the output depends on it. -/
def generate_population_comparison (data : List (String × Value))
    (risk_score : ℚ) (noise : ℚ) : PopulationComparison :=
  let age := pyGetNum data "age" 50
  let decade := ratFloorI (age / 10) * 10
  { user_risk := risk_score * 100
    age_group_average := max 10 (min 90 ((age - 20) * 1.5 + noise))
    population_average := 35
    age_group := toString decade ++ "-" ++ toString (decade + 9) }

/-- The dict returned by BasePredictor.generate_chart_data
(base_predictor.py lines 186-206). -/
structure ChartData where
  risk_gauge_value : ℚ
  risk_gauge_ranges : List GaugeRange
  risk_factors_labels : List String
  risk_factors_data : List ℚ
  risk_factors_colors : List String
  health_metrics : HealthMetricsChart
  comparison_data : PopulationComparison
deriving DecidableEq, Repr, Inhabited

/-- BasePredictor.generate_chart_data (base_predictor.py lines 186-206). -/
def generate_chart_data (data : List (String × Value)) (risk_score : ℚ)
    (risk_factors : List RiskFactor) (noise : ℚ) : ChartData :=
  { risk_gauge_value := risk_score * 100
    risk_gauge_ranges :=
      [{ fromPct := 0, toPct := 20, color := "#22c55e", label := "Low Risk" },
       { fromPct := 20, toPct := 40, color := "#84cc16", label := "Mild Risk" },
       { fromPct := 40, toPct := 60, color := "#eab308", label := "Moderate Risk" },
       { fromPct := 60, toPct := 80, color := "#f97316", label := "High Risk" },
       { fromPct := 80, toPct := 100, color := "#ef4444", label := "Very High Risk" }]
    risk_factors_labels := (risk_factors.take 8).map (·.factor)
    risk_factors_data := (risk_factors.take 8).map (·.contribution_score * 100)
    risk_factors_colors := (risk_factors.take 8).map (fun rf => get_risk_color rf.contribution_score)
    health_metrics := generate_health_metrics_chart data
    comparison_data := generate_population_comparison data risk_score noise }

/-- BasePredictor.generate_explanation (base_predictor.py lines 208-228). -/
def generate_explanation (name : String) (_data : List (String × Value))
    (risk_score : ℚ) (risk_level : String)
    (risk_factors : List RiskFactor) : String :=
  let part1 := "Based on the provided health information, your " ++
    name.toLower ++ " shows a " ++ risk_level.toLower ++
    " risk level with a score of " ++ fmtPercent1 risk_score ++ "."
  let parts2 :=
    if risk_factors ≠ [] then
      ["The primary contributing factors are: " ++
        String.intercalate ", " ((risk_factors.take 3).map (·.factor)) ++ "."]
    else []
  let part3 :=
    if risk_score < 0.3 then
      "This indicates a relatively low risk, but maintaining healthy habits is important for prevention."
    else if risk_score < 0.6 then
      "This suggests moderate risk that can be managed through lifestyle modifications and regular monitoring."
    else
      "This indicates elevated risk that requires immediate attention and potentially medical intervention."
  String.intercalate " " ([part1] ++ parts2 ++ [part3])

/-- BasePredictor.assess_severity (base_predictor.py lines 231-242). -/
def assess_severity (risk_score : ℚ) (_data : List (String × Value)) : String :=
  if risk_score < 0.2 then
    "Minimal - Very low likelihood of developing the condition"
  else if risk_score < 0.4 then
    "Mild - Low to moderate risk with good prognosis if managed"
  else if risk_score < 0.6 then
    "Moderate - Significant risk requiring active management"
  else if risk_score < 0.8 then
    "High - Elevated risk requiring immediate intervention"
  else
    "Critical - Very high risk requiring urgent medical attention"

/-- BasePredictor.identify_contributing_factors (base_predictor.py
lines 244-248): the base class returns an empty list. -/
def identify_contributing_factors (_data : List (String × Value)) : List String :=
  []

/-- BasePredictor.analyze_health_metrics (base_predictor.py lines 250-253). -/
def analyze_health_metrics (_data : List (String × Value)) :
    List (String × String) :=
  []

/-- BasePredictor.assess_lifestyle_impact (base_predictor.py lines 255-258). -/
def assess_lifestyle_impact (_data : List (String × Value)) : String :=
  "Lifestyle factors play a significant role in risk development."

/-- BasePredictor.suggest_preventive_measures (base_predictor.py
lines 260-269). -/
def suggest_preventive_measures (_risk_score : ℚ)
    (_data : List (String × Value)) : List String :=
  ["Regular health screenings and check-ups",
   "Maintain a balanced, nutritious diet",
   "Engage in regular physical activity",
   "Manage stress through relaxation techniques",
   "Avoid smoking and limit alcohol consumption"]

/-- The dict returned by BasePredictor.generate_detailed_analysis
(base_predictor.py lines 107-116). -/
structure DetailedAnalysis where
  severity_assessment : String
  contributing_factors : List String
  health_metrics_analysis : List (String × String)
  lifestyle_impact : String
  preventive_measures : List String
deriving DecidableEq, Repr, Inhabited

/-- BasePredictor.generate_detailed_analysis (base_predictor.py
lines 107-116), with the base-class helper implementations. -/
def generate_detailed_analysis (data : List (String × Value))
    (risk_score : ℚ) (_risk_level : String) : DetailedAnalysis :=
  { severity_assessment := assess_severity risk_score data
    contributing_factors := identify_contributing_factors data
    health_metrics_analysis := analyze_health_metrics data
    lifestyle_impact := assess_lifestyle_impact data
    preventive_measures := suggest_preventive_measures risk_score data }

/-- The dict returned by BasePredictor.predict (base_predictor.py
lines 384-393). -/
structure PredictResult where
  risk_score : ℚ
  risk_level : String
  detailed_analysis : DetailedAnalysis
  risk_factors : List RiskFactor
  recommendations : List String
  confidence : ℚ
  chart_data : ChartData
  explanation : String
deriving DecidableEq, Repr, Inhabited

/-- BasePredictor.predict (base_predictor.py lines 347-393),
parameterized by everything the method reaches through `self` — the
schema, the descriptions, the predictor display name, the two
per-domain hooks, and the domain preprocess_data — and by the two
non-deterministic inputs: `modelOut`, the probability produced by the
lazily trained sklearn fallback model, and `noise`, the np.random draw
inside generate_population_comparison.  Validation runs first, and the
later stages consume the dict as validate_input left it (the Python code
mutates `data` in place and keeps using the same object).  The
`max(0.0, min(1.0, risk_score))` clamp is applied before every
downstream use of the score. -/
def predict (required : List (String × String))
    (descriptions : List (String × String)) (name : String)
    (contrib : String → Value → ℚ → ℚ)
    (explainF : String → Value → String)
    (preprocess : List (String × Value) → List ℚ)
    (modelOut : ℚ) (noise : ℚ) (data : List (String × Value)) :
    Except ValidationError PredictResult :=
  match validate_input required data with
  | .error e => .error e
  | .ok data1 =>
    let processed_data := preprocess data1
    let risk_score := max 0.0 (min 1.0 modelOut)
    let risk_level := calculate_risk_level risk_score
    let detailed_analysis := generate_detailed_analysis data1 risk_score risk_level
    let risk_factors := analyze_risk_factors required descriptions contrib explainF data1 processed_data
    let recommendations := get_enhanced_recommendations risk_score risk_level data1 risk_factors
    let confidence := calculate_confidence required data1 risk_score risk_factors
    let chart_data := generate_chart_data data1 risk_score risk_factors noise
    .ok { risk_score := risk_score
          risk_level := risk_level
          detailed_analysis := detailed_analysis
          risk_factors := risk_factors
          recommendations := recommendations
          confidence := confidence
          chart_data := chart_data
          explanation := generate_explanation name data1 risk_score risk_level risk_factors }

end BasePredictor

/-- The weight-table override pattern of calculate_field_risk_contribution
shared by the domain predictors that do override the hook
(disease_predictors.py lines 452-473, 1081-1101, 1335-1355, 1587-1607,
1960-1978, 2351-2372): `base_contribution * risk_weights.get(field, 0.5)`. -/
def calculate_field_risk_contribution_weighted
    (risk_weights : List (String × ℚ)) (field_name : String)
    (normalized_value : ℚ) : ℚ :=
  let base_contribution := |normalized_value - 0.5| * 2
  let weight := ((risk_weights.find? (fun p => p.1 = field_name)).map (·.2)).getD 0.5
  base_contribution * weight

namespace HeartDiseasePredictor

/-- HeartDiseasePredictor.get_required_fields
(predictors/disease_predictors.py lines 14-29) — the cardiac predictor the
app registers under "heart_disease" (the predictors package shadows the
flat predictors.py module at import time). -/
def get_required_fields : List (String × String) :=
  [("age", "int"), ("sex", "int"), ("chest_pain_type", "int"),
   ("resting_bp", "float"), ("cholesterol", "float"),
   ("fasting_blood_sugar", "int"), ("resting_ecg", "int"),
   ("max_heart_rate", "float"), ("exercise_angina", "int"),
   ("st_depression", "float"), ("st_slope", "int"), ("smoking", "int"),
   ("family_history", "int")]

/-- HeartDiseasePredictor.get_field_descriptions
(predictors/disease_predictors.py lines 31-46). -/
def get_field_descriptions : List (String × String) :=
  [("age", "Age in years"),
   ("sex", "Sex (1 = Male, 0 = Female)"),
   ("chest_pain_type", "Chest pain type (0 = Typical angina, 1 = Atypical angina, 2 = Non-anginal pain, 3 = Asymptomatic)"),
   ("resting_bp", "Resting blood pressure (mm Hg)"),
   ("cholesterol", "Serum cholesterol (mg/dl)"),
   ("fasting_blood_sugar", "Fasting blood sugar > 120 mg/dl (1 = Yes, 0 = No)"),
   ("resting_ecg", "Resting ECG results (0 = Normal, 1 = ST-T wave abnormality, 2 = Left ventricular hypertrophy)"),
   ("max_heart_rate", "Maximum heart rate achieved"),
   ("exercise_angina", "Exercise induced angina (1 = Yes, 0 = No)"),
   ("st_depression", "ST depression induced by exercise relative to rest"),
   ("st_slope", "Slope of peak exercise ST segment (0 = Upsloping, 1 = Flat, 2 = Downsloping)"),
   ("smoking", "Smoking status (1 = Yes, 0 = No)"),
   ("family_history", "Family history of heart disease (1 = Yes, 0 = No)")]

/-- HeartDiseasePredictor.preprocess_data
(predictors/disease_predictors.py lines 48-64); direct `data[...]`
indexing is modelled with a 0 default, which validation makes
unreachable. -/
def preprocess_data (data : List (String × Value)) : List ℚ :=
  [pyGetNum data "age" 0 / 100,
   pyGetNum data "sex" 0,
   pyGetNum data "chest_pain_type" 0 / 3,
   pyGetNum data "resting_bp" 0 / 200,
   pyGetNum data "cholesterol" 0 / 400,
   pyGetNum data "fasting_blood_sugar" 0,
   pyGetNum data "resting_ecg" 0 / 2,
   pyGetNum data "max_heart_rate" 0 / 220,
   pyGetNum data "exercise_angina" 0,
   pyGetNum data "st_depression" 0 / 5,
   pyGetNum data "st_slope" 0 / 2,
   pyGetNum data "smoking" 0,
   pyGetNum data "family_history" 0]

/-- The registered cardiac predictor's inherited BasePredictor.predict,
instantiated with this domain's schema, descriptions and preprocessing;
the class does not override the contribution or explanation hooks. -/
def predict (modelOut : ℚ) (noise : ℚ) (data : List (String × Value)) :
    Except ValidationError BasePredictor.PredictResult :=
  BasePredictor.predict get_required_fields get_field_descriptions
    "Heart Disease Risk Predictor"
    BasePredictor.calculate_field_risk_contribution
    BasePredictor.explain_field_risk
    preprocess_data modelOut noise data

end HeartDiseasePredictor

namespace Flat

/-- The flat legacy module predictors.py has its own BasePredictor with
the same calculate_risk_level thresholds (predictors.py lines 27-36). -/
def calculate_risk_level (risk_score : ℚ) : String :=
  if risk_score < 0.3 then "Low"
  else if risk_score < 0.6 then "Moderate"
  else if risk_score < 0.8 then "High"
  else "Very High"

/-- The dict returned by the flat HeartDiseasePredictor.predict
(predictors.py lines 73-78). -/
structure HeartResult where
  risk_score : ℚ
  risk_level : String
  recommendations : List String
  confidence : ℚ
deriving DecidableEq, Repr, Inhabited

namespace HeartDiseasePredictor

/-- HeartDiseasePredictor.get_required_fields of the flat legacy module
(predictors.py lines 80-81). -/
def get_required_fields : List String :=
  ["age", "cholesterol", "systolic_bp", "smoking", "diabetes"]

/-- HeartDiseasePredictor.predict of the flat legacy module
(predictors.py lines 46-78): an explicit weighted-sum formula over
`data.get(...)` defaults, with no validation step. -/
def predict (data : List (String × Value)) : HeartResult :=
  let age := pyGetNum data "age" 50
  let cholesterol := pyGetNum data "cholesterol" 200
  let blood_pressure := pyGetNum data "systolic_bp" 120
  let smoking := pyTruthy (pyGet data "smoking" (.vBool false))
  let diabetes := pyTruthy (pyGet data "diabetes" (.vBool false))
  let risk_score :=
    min (age / 100) 0.3 + min (cholesterol / 400) 0.25 +
    min (blood_pressure / 200) 0.2 +
    (if smoking then 0.15 else 0) + (if diabetes then 0.1 else 0)
  let risk_level := Flat.calculate_risk_level risk_score
  let recommendations :=
    (if cholesterol > 240 then ["Consider cholesterol-lowering medication"] else []) ++
    (if blood_pressure > 140 then ["Monitor blood pressure regularly"] else []) ++
    (if smoking then ["Quit smoking immediately"] else []) ++
    ["Regular exercise and healthy diet"]
  { risk_score := pyRound3 risk_score
    risk_level := risk_level
    recommendations := recommendations
    confidence := 0.85 }

end HeartDiseasePredictor

end Flat

namespace App

/-- The detailed_analysis block assembled by app.py lines 131-135. -/
structure AnalysisPayload where
  contributing_factors : List String
  health_metrics : List (String × String)
  lifestyle_impact : String
deriving DecidableEq, Repr, Inhabited

/-- The /predict JSON response assembled by app.py make_prediction
(lines 118-140), minus the transport timestamp.  detailed_analysis and
analysis_error are absent keys when not set. -/
structure PredictResponse where
  predictor_type : String
  risk_score : ℚ
  risk_level : String
  recommendations : List String
  confidence : ℚ
  detailed_analysis : Option AnalysisPayload
  analysis_error : Option String
deriving DecidableEq, Repr, Inhabited

/-- app.py make_prediction, lines 118-140: the base response is built
from the predictor result; when analysis is requested and supported, a
successful analysis attaches detailed_analysis, and a raised analysis
exception is caught and recorded as the analysis_error marker instead of
failing the call (the function still returns the response). -/
def make_prediction (predictor_type : String)
    (result : BasePredictor.PredictResult) (include_analysis : Bool)
    (supports_analysis : Bool) (analysis : Except String AnalysisPayload) :
    PredictResponse :=
  let response : PredictResponse :=
    { predictor_type := predictor_type
      risk_score := result.risk_score
      risk_level := result.risk_level
      recommendations := result.recommendations
      confidence := result.confidence
      detailed_analysis := none
      analysis_error := none }
  if include_analysis ∧ supports_analysis then
    match analysis with
    | .ok payload => { response with detailed_analysis := some payload }
    | .error analysis_error =>
      { response with
          analysis_error := some ("Enhanced analysis failed: " ++ analysis_error) }
  else response

end App

/-- The confidence estimator exactly as the specification words it
(spec §4.5 / claim C3): completeness, certainty = 1 − 2*|0.5 − score|,
factor_support = min(1, n/5), combined as
0.75*(0.4*completeness + 0.4*certainty + 0.2*factor_support) and clamped
to [0.60, 0.95].  Stated for comparison against the code's
calculate_confidence. -/
def confidenceSpec (required : List (String × String))
    (data : List (String × Value)) (score : ℚ) (factorCount : ℕ) : ℚ :=
  let completeness := (BasePredictor.providedCount data : ℚ) / (required.length : ℚ)
  let certainty := 1 - 2 * |(0.5 : ℚ) - score|
  let factor_support := min 1 ((factorCount : ℚ) / 5)
  min 0.95 (max 0.60 (0.75 * (0.4 * completeness + 0.4 * certainty + 0.2 * factor_support)))

/-- The scenario record of spec §8 / claim C9:
age 70, cholesterol 260, systolic_bp 150, smoking true, diabetes true
(JSON numbers arrive as Python ints). -/
def cardiacScenarioRecord : List (String × Value) :=
  [("age", .vInt 70), ("cholesterol", .vInt 260), ("systolic_bp", .vInt 150),
   ("smoking", .vBool true), ("diabetes", .vBool true)]

/-- A complete valid record for the registered cardiac predictor (the
13-field schema), used to evaluate the pipeline end to end on a concrete
input. -/
def cardiacFullRecord : List (String × Value) :=
  [("age", .vInt 70), ("sex", .vInt 1), ("chest_pain_type", .vInt 2),
   ("resting_bp", .vInt 130), ("cholesterol", .vInt 260),
   ("fasting_blood_sugar", .vInt 1), ("resting_ecg", .vInt 0),
   ("max_heart_rate", .vInt 150), ("exercise_angina", .vInt 0),
   ("st_depression", .vInt 1), ("st_slope", .vInt 1), ("smoking", .vInt 1),
   ("family_history", .vInt 1)]

/-- One concrete end-to-end run of the registered cardiac predictor's
pipeline (model probability 0.7, zero noise draw). -/
def cardiacRun : Except ValidationError BasePredictor.PredictResult :=
  HeartDiseasePredictor.predict 0.7 0 cardiacFullRecord

end GodsHealth

open GodsHealth

/-- C2: BasePredictor.calculate_risk_level follows the fixed system-wide
threshold table: score < 0.30 is Low, 0.30 ≤ score < 0.60 is Moderate,
0.60 ≤ score < 0.80 is High, score ≥ 0.80 is Very High; in particular the
boundary score 0.30 classifies as Moderate and 0.2999 as Low. -/
theorem C2_classification_thresholds :
    (∀ s : ℚ,
      (s < 0.30 → BasePredictor.calculate_risk_level s = "Low") ∧
      (0.30 ≤ s → s < 0.60 → BasePredictor.calculate_risk_level s = "Moderate") ∧
      (0.60 ≤ s → s < 0.80 → BasePredictor.calculate_risk_level s = "High") ∧
      (0.80 ≤ s → BasePredictor.calculate_risk_level s = "Very High")) ∧
    BasePredictor.calculate_risk_level 0.30 = "Moderate" ∧
    BasePredictor.calculate_risk_level 0.2999 = "Low" := by
  refine ⟨fun s => ⟨?_, ?_, ?_, ?_⟩,
      by norm_num [BasePredictor.calculate_risk_level],
      by norm_num [BasePredictor.calculate_risk_level]⟩ <;>
    (intros
     unfold BasePredictor.calculate_risk_level
     split_ifs <;> first
      | rfl
      | (exfalso; norm_num at *; linarith))

/-- Closed instance of C2_classification_thresholds: the four threshold
bands applied at concrete scores. -/
theorem C2_classification_thresholds_witness :
    BasePredictor.calculate_risk_level 0.1 = "Low" ∧
    BasePredictor.calculate_risk_level 0.45 = "Moderate" ∧
    BasePredictor.calculate_risk_level 0.7 = "High" ∧
    BasePredictor.calculate_risk_level 0.92 = "Very High" :=
  ⟨(C2_classification_thresholds.1 0.1).1 (by norm_num),
   (C2_classification_thresholds.1 0.45).2.1 (by norm_num) (by norm_num),
   (C2_classification_thresholds.1 0.7).2.2.1 (by norm_num) (by norm_num),
   (C2_classification_thresholds.1 0.92).2.2.2 (by norm_num)⟩

/-- C3: BasePredictor.calculate_confidence computes exactly the
specification's formula — 0.75 * (0.4*completeness + 0.4*certainty +
0.2*factor_support) clamped to [0.60, 0.95], with completeness the
non-empty-provided-over-required ratio, certainty = 1 − 2*|0.5 − score|
and factor_support = min(1, factors/5). -/
theorem C3_confidence_formula (required : List (String × String))
    (data : List (String × Value)) (score : ℚ)
    (factors : List BasePredictor.RiskFactor) :
    BasePredictor.calculate_confidence required data score factors =
      confidenceSpec required data score factors.length := by
  unfold BasePredictor.calculate_confidence confidenceSpec
    BasePredictor.completeness_factor
  dsimp only
  congr 1
  congr 1
  ring

/-- C4: the population-comparison block of the visualization payload is a
function of the np.random.normal draw made on each call — two runs of
generate_population_comparison on the identical record and score but
different draws return different payloads, so repeated assessments of the
same record are not byte-identical. -/
theorem C4_population_comparison_randomized :
    BasePredictor.generate_population_comparison [("age", Value.vInt 50)] 0.5 0 ≠
      BasePredictor.generate_population_comparison [("age", Value.vInt 50)] 0.5 1 := by
  intro h
  have h2 := congrArg BasePredictor.PopulationComparison.age_group_average h
  norm_num [BasePredictor.generate_population_comparison, pyGetNum, lookupField,
    pyNum, min_def, max_def] at h2

/-- C5 counterexample: the registered domains that do not override
calculate_field_risk_contribution (the base-class hook) compute
|normalized − 0.5| * 2 — an implicit weight of 1.0 — while the claimed
formula with the 0.5 default weight (an empty weight table) gives half
that value; at normalized value 1 the code yields contribution 1, the
claim yields 0.5, and the factor lists produced differ accordingly. -/
theorem C5_factor_ranking_counterexample :
    BasePredictor.calculate_field_risk_contribution "age" (Value.vInt 70) 1 = 1 ∧
    calculate_field_risk_contribution_weighted [] "age" 1 = 0.5 ∧
    BasePredictor.calculate_field_risk_contribution "age" (Value.vInt 70) 1 ≠
      calculate_field_risk_contribution_weighted [] "age" 1 ∧
    (BasePredictor.analyze_risk_factors [("age", "int")] []
        BasePredictor.calculate_field_risk_contribution
        BasePredictor.explain_field_risk
        [("age", Value.vInt 70)] [1]).map (fun rf => rf.contribution_score) = [1] := by
  have habs : |(1:ℚ)/2| = 1/2 := abs_of_nonneg (by norm_num)
  refine ⟨?_, ?_, ?_, ?_⟩
  · norm_num [BasePredictor.calculate_field_risk_contribution, habs]
  · norm_num [calculate_field_risk_contribution_weighted, habs]
  · norm_num [BasePredictor.calculate_field_risk_contribution,
      calculate_field_risk_contribution_weighted, habs]
  · norm_num [BasePredictor.analyze_risk_factors,
      BasePredictor.calculate_field_risk_contribution,
      BasePredictor.sortByContributionDesc, BasePredictor.insertDesc,
      BasePredictor.categorize_field_risk, pyGet, lookupField, lookupStr,
      List.filterMap, habs]

theorem insertDesc_perm (x : BasePredictor.RiskFactor)
    (l : List BasePredictor.RiskFactor) :
    (BasePredictor.insertDesc x l).Perm (x :: l) := by
  induction l with
  | nil => simp [BasePredictor.insertDesc]
  | cons y ys ih =>
    unfold BasePredictor.insertDesc
    split
    · exact (ih.cons y).trans (List.Perm.swap x y ys)
    · exact List.Perm.refl _

theorem sortByContributionDesc_perm (l : List BasePredictor.RiskFactor) :
    (BasePredictor.sortByContributionDesc l).Perm l := by
  induction l with
  | nil => simp [BasePredictor.sortByContributionDesc]
  | cons a l ih =>
    show (BasePredictor.insertDesc a (BasePredictor.sortByContributionDesc l)).Perm (a :: l)
    exact (insertDesc_perm a _).trans (ih.cons a)

theorem insertDesc_pairwise (x : BasePredictor.RiskFactor)
    (l : List BasePredictor.RiskFactor)
    (h : l.Pairwise (fun a b => b.contribution_score ≤ a.contribution_score)) :
    (BasePredictor.insertDesc x l).Pairwise
      (fun a b => b.contribution_score ≤ a.contribution_score) := by
  induction l with
  | nil => simp [BasePredictor.insertDesc]
  | cons y ys ih =>
    rcases List.pairwise_cons.mp h with ⟨hy, hys⟩
    unfold BasePredictor.insertDesc
    by_cases hxy : x.contribution_score < y.contribution_score
    · rw [if_pos hxy]
      refine List.pairwise_cons.mpr ⟨?_, ih hys⟩
      intro z hz
      rcases List.mem_cons.mp ((insertDesc_perm x ys).mem_iff.mp hz) with hzx | hzys
      · exact hzx ▸ le_of_lt hxy
      · exact hy z hzys
    · rw [if_neg hxy]
      refine List.pairwise_cons.mpr ⟨?_, h⟩
      intro z hz
      rcases List.mem_cons.mp hz with hzy | hzys
      · exact hzy ▸ le_of_not_lt hxy
      · exact le_trans (hy z hzys) (le_of_not_lt hxy)

theorem sortByContributionDesc_pairwise (l : List BasePredictor.RiskFactor) :
    (BasePredictor.sortByContributionDesc l).Pairwise
      (fun a b => b.contribution_score ≤ a.contribution_score) := by
  induction l with
  | nil => simp [BasePredictor.sortByContributionDesc]
  | cons a l ih => exact insertDesc_pairwise a _ ih

theorem filter_insertDesc (x : BasePredictor.RiskFactor)
    (l : List BasePredictor.RiskFactor) (c : ℚ) :
    (BasePredictor.insertDesc x l).filter (fun rf => rf.contribution_score = c) =
      if x.contribution_score = c then
        x :: l.filter (fun rf => rf.contribution_score = c)
      else l.filter (fun rf => rf.contribution_score = c) := by
  induction l with
  | nil =>
    by_cases hxc : x.contribution_score = c <;>
      simp [BasePredictor.insertDesc, List.filter, hxc]
  | cons y ys ih =>
    unfold BasePredictor.insertDesc
    by_cases hxy : x.contribution_score < y.contribution_score
    · rw [if_pos hxy]
      by_cases hyc : y.contribution_score = c
      · have hxc : ¬ x.contribution_score = c := by
          intro hx
          rw [hx, hyc] at hxy
          exact lt_irrefl c hxy
        simp [List.filter_cons, hyc, hxc, ih]
      · simp [List.filter_cons, hyc, ih]
    · rw [if_neg hxy]
      simp [List.filter_cons]

theorem filter_sortByContributionDesc (l : List BasePredictor.RiskFactor) (c : ℚ) :
    (BasePredictor.sortByContributionDesc l).filter
        (fun rf => rf.contribution_score = c) =
      l.filter (fun rf => rf.contribution_score = c) := by
  induction l with
  | nil => simp [BasePredictor.sortByContributionDesc]
  | cons a l ih =>
    show (BasePredictor.insertDesc a (BasePredictor.sortByContributionDesc l)).filter _ = _
    rw [filter_insertDesc]
    by_cases hac : a.contribution_score = c <;> simp [hac, ih, List.filter_cons]

theorem analyze_risk_factors_mem_gt (required descriptions : List (String × String))
    (contrib : String → Value → ℚ → ℚ) (explainF : String → Value → String)
    (data : List (String × Value)) (processed_data : List ℚ)
    (rf : BasePredictor.RiskFactor)
    (h : rf ∈ BasePredictor.analyze_risk_factors required descriptions contrib
        explainF data processed_data) :
    rf.contribution_score > 0.1 := by
  unfold BasePredictor.analyze_risk_factors at h
  have h1 := List.mem_of_mem_take h
  have h2 := (sortByContributionDesc_perm _).mem_iff.mp h1
  obtain ⟨a, ha, hsome⟩ := List.mem_filterMap.mp h2
  dsimp only at hsome
  split_ifs at hsome with hgt
  cases hsome
  exact hgt

/-- C5 amended: in the domains that supply a weight table, the per-field
contribution is |normalized − 0.5| * 2 * weight with weight defaulting to
0.5 only for fields absent from that table; in domains that leave the
base hook in place the contribution is |normalized − 0.5| * 2 (implicit
weight 1.0, not 0.5).  In every case analyze_risk_factors excludes
factors with contribution ≤ 0.1, sorts the rest in descending
contribution order, keeps ties in schema (list) order — the stable-sort
property stated through score-filter preservation — and truncates to at
most 10 entries. -/
theorem C5_factor_ranking :
    (∀ (w : List (String × ℚ)) (f : String) (nv : ℚ),
      calculate_field_risk_contribution_weighted w f nv =
        |nv - 0.5| * 2 * (((w.find? (fun p => p.1 = f)).map (·.2)).getD 0.5)) ∧
    (∀ (f : String) (v : Value) (nv : ℚ),
      BasePredictor.calculate_field_risk_contribution f v nv = |nv - 0.5| * 2) ∧
    (∀ (required descriptions : List (String × String))
        (contrib : String → Value → ℚ → ℚ)
        (explainF : String → Value → String)
        (data : List (String × Value)) (processed_data : List ℚ)
        (rf : BasePredictor.RiskFactor),
      rf ∈ BasePredictor.analyze_risk_factors required descriptions contrib
          explainF data processed_data →
      rf.contribution_score > 0.1) ∧
    (∀ (required descriptions : List (String × String))
        (contrib : String → Value → ℚ → ℚ)
        (explainF : String → Value → String)
        (data : List (String × Value)) (processed_data : List ℚ),
      (BasePredictor.analyze_risk_factors required descriptions contrib
          explainF data processed_data).Pairwise
        (fun a b => b.contribution_score ≤ a.contribution_score)) ∧
    (∀ (required descriptions : List (String × String))
        (contrib : String → Value → ℚ → ℚ)
        (explainF : String → Value → String)
        (data : List (String × Value)) (processed_data : List ℚ),
      (BasePredictor.analyze_risk_factors required descriptions contrib
          explainF data processed_data).length ≤ 10) ∧
    (∀ (l : List BasePredictor.RiskFactor) (c : ℚ),
      (BasePredictor.sortByContributionDesc l).filter
          (fun rf => rf.contribution_score = c) =
        l.filter (fun rf => rf.contribution_score = c)) := by
  refine ⟨fun w f nv => rfl, fun f v nv => rfl, analyze_risk_factors_mem_gt,
    ?_, ?_, filter_sortByContributionDesc⟩
  · intro required descriptions contrib explainF data processed_data
    unfold BasePredictor.analyze_risk_factors
    exact (sortByContributionDesc_pairwise _).sublist (List.take_sublist _ _)
  · intro required descriptions contrib explainF data processed_data
    unfold BasePredictor.analyze_risk_factors
    exact List.length_take_le 10 _

/-- Closed instance of C5_factor_ranking: the threshold-exclusion
conjunct applied to the one factor of a concrete single-field run. -/
theorem C5_factor_ranking_witness :
    BasePredictor.RiskFactor.contribution_score
      { factor := "age", value := Value.vInt 70, risk_level := "Very High",
        contribution_score := 1,
        explanation := BasePredictor.explain_field_risk "age" (Value.vInt 70) } >
      0.1 :=
  C5_factor_ranking.2.2.1 [("age", "int")] []
    BasePredictor.calculate_field_risk_contribution
    BasePredictor.explain_field_risk [("age", Value.vInt 70)] [1] _ (by
      have habs : |(1:ℚ)/2| = 1/2 := abs_of_nonneg (by norm_num)
      norm_num [BasePredictor.analyze_risk_factors,
        BasePredictor.calculate_field_risk_contribution,
        BasePredictor.sortByContributionDesc, BasePredictor.insertDesc,
        BasePredictor.categorize_field_risk, pyGet, lookupField, lookupStr,
        List.filterMap, habs, BasePredictor.RiskFactor.mk.injEq])

theorem lookupField_setField_none (d : List (String × Value)) (f g : String)
    (w : Value) (h : lookupField d f = none) :
    lookupField (setField d g w) f = none := by
  induction d with
  | nil => exact h
  | cons p rest ih =>
    simp only [lookupField] at h
    by_cases hpf : p.1 = f
    · simp [hpf] at h
    · rw [if_neg hpf] at h
      show lookupField ((if p.1 = g then (p.1, w) else p) :: setField rest g w) f = none
      by_cases hpg : p.1 = g
      · rw [if_pos hpg]
        simp only [lookupField]
        rw [if_neg hpf]
        exact ih h
      · rw [if_neg hpg]
        simp only [lookupField]
        rw [if_neg hpf]
        exact ih h

theorem lookupField_setField_of_ne (d : List (String × Value)) (f g : String)
    (w : Value) (h : f ≠ g) :
    lookupField (setField d g w) f = lookupField d f := by
  induction d with
  | nil => rfl
  | cons p rest ih =>
    show lookupField ((if p.1 = g then (p.1, w) else p) :: setField rest g w) f = _
    by_cases hpf : p.1 = f
    · have hpg : ¬ p.1 = g := fun hg => h (hpf ▸ hg)
      rw [if_neg hpg]
      simp only [lookupField]
      rw [if_pos hpf, if_pos hpf]
    · by_cases hpg : p.1 = g
      · rw [if_pos hpg]
        simp only [lookupField]
        rw [if_neg hpf, if_neg hpf]
        exact ih
      · rw [if_neg hpg]
        simp only [lookupField]
        rw [if_neg hpf, if_neg hpf]
        exact ih

theorem typeMatches_keep (t : String) (v : Value) (h : typeMatches t v = true) :
    coerceValue t v = .keep := by
  unfold typeMatches at h
  unfold coerceValue
  split_ifs at h ⊢ <;> cases v <;> simp_all

theorem validate_missing_isError (required : List (String × String)) :
    ∀ (data : List (String × Value)) (f t : String), (f, t) ∈ required →
      lookupField data f = none →
      ∃ e, BasePredictor.validate_input required data = .error e := by
  induction required with
  | nil =>
    intro data f t hmem _
    exact absurd hmem (List.not_mem_nil _)
  | cons q rest ih =>
    obtain ⟨g, u⟩ := q
    intro data f t hmem hnone
    cases hg : lookupField data g with
    | none =>
      exact ⟨.missingField g, by simp only [BasePredictor.validate_input, hg]⟩
    | some v =>
      have hfg : f ≠ g := by
        intro hfg
        rw [hfg, hg] at hnone
        cases hnone
      have hmem' : (f, t) ∈ rest := by
        rcases List.mem_cons.mp hmem with heq | h'
        · exact absurd (congrArg Prod.fst heq) hfg
        · exact h'
      cases hc : coerceValue u v with
      | keep =>
        obtain ⟨e, he⟩ := ih data f t hmem' hnone
        exact ⟨e, by simp only [BasePredictor.validate_input, hg, hc]; exact he⟩
      | coerced w =>
        obtain ⟨e, he⟩ :=
          ih (setField data g w) f t hmem' (lookupField_setField_none _ _ _ _ hnone)
        exact ⟨e, by simp only [BasePredictor.validate_input, hg, hc]; exact he⟩
      | notNumber =>
        exact ⟨.mustBeNumber g, by simp only [BasePredictor.validate_input, hg, hc]⟩
      | notInteger =>
        exact ⟨.mustBeInteger g, by simp only [BasePredictor.validate_input, hg, hc]⟩

theorem validate_missing_first (pre : List (String × String)) :
    ∀ (post : List (String × String)) (f t : String)
      (data : List (String × Value)),
      (∀ p ∈ pre, ∃ v, lookupField data p.1 = some v ∧ typeMatches p.2 v = true) →
      lookupField data f = none →
      BasePredictor.validate_input (pre ++ (f, t) :: post) data =
        .error (.missingField f) := by
  induction pre with
  | nil =>
    intro post f t data _ hnone
    simp only [List.nil_append, BasePredictor.validate_input, hnone]
  | cons q pre' ih =>
    obtain ⟨g, u⟩ := q
    intro post f t data hpre hnone
    obtain ⟨v, hv, hm⟩ := hpre (g, u) (List.mem_cons_self _ _)
    simp only [List.cons_append, BasePredictor.validate_input, hv,
      typeMatches_keep u v hm]
    exact ih post f t data (fun p hp => hpre p (List.mem_cons_of_mem _ hp)) hnone

theorem validate_float_coercion_first (pre : List (String × String)) :
    ∀ (post : List (String × String)) (f s : String)
      (data : List (String × Value)),
      (∀ p ∈ pre, ∃ v, lookupField data p.1 = some v ∧ typeMatches p.2 v = true) →
      lookupField data f = some (.vStr s) → parseFloat s = none →
      BasePredictor.validate_input (pre ++ (f, "float") :: post) data =
        .error (.mustBeNumber f) := by
  induction pre with
  | nil =>
    intro post f s data _ hsome hparse
    simp [List.nil_append, BasePredictor.validate_input, hsome, coerceValue, hparse]
  | cons q pre' ih =>
    obtain ⟨g, u⟩ := q
    intro post f s data hpre hsome hparse
    obtain ⟨v, hv, hm⟩ := hpre (g, u) (List.mem_cons_self _ _)
    simp only [List.cons_append, BasePredictor.validate_input, hv,
      typeMatches_keep u v hm]
    exact ih post f s data (fun p hp => hpre p (List.mem_cons_of_mem _ hp))
      hsome hparse

theorem validate_all_coercible (required : List (String × String)) :
    ∀ (data : List (String × Value)), (required.map Prod.fst).Nodup →
      (∀ p ∈ required, ∃ v, lookupField data p.1 = some v ∧
        coercibleValue p.2 v = true) →
      ∃ d2, BasePredictor.validate_input required data = .ok d2 := by
  induction required with
  | nil =>
    intro data _ _
    exact ⟨data, rfl⟩
  | cons q rest ih =>
    obtain ⟨g, u⟩ := q
    intro data hnd hall
    obtain ⟨v, hv, hc⟩ := hall (g, u) (List.mem_cons_self _ _)
    have hnd' : (rest.map Prod.fst).Nodup := (List.nodup_cons.mp hnd).2
    have hgnot : g ∉ rest.map Prod.fst := (List.nodup_cons.mp hnd).1
    cases hco : coerceValue u v with
    | keep =>
      obtain ⟨d2, hd2⟩ := ih data hnd' (fun p hp => hall p (List.mem_cons_of_mem _ hp))
      exact ⟨d2, by simp only [BasePredictor.validate_input, hv, hco]; exact hd2⟩
    | coerced w =>
      have hrest : ∀ p ∈ rest, ∃ v', lookupField (setField data g w) p.1 = some v' ∧
          coercibleValue p.2 v' = true := by
        intro p hp
        obtain ⟨v', hv', hc'⟩ := hall p (List.mem_cons_of_mem _ hp)
        have hpg : p.1 ≠ g := by
          intro he
          exact hgnot (he ▸ List.mem_map_of_mem Prod.fst hp)
        exact ⟨v', by rw [lookupField_setField_of_ne _ _ _ _ hpg]; exact hv', hc'⟩
      obtain ⟨d2, hd2⟩ := ih (setField data g w) hnd' hrest
      exact ⟨d2, by simp only [BasePredictor.validate_input, hv, hco]; exact hd2⟩
    | notNumber =>
      exfalso
      unfold coercibleValue at hc
      rw [hco] at hc
      cases hc
    | notInteger =>
      exfalso
      unfold coercibleValue at hc
      rw [hco] at hc
      cases hc

/-- C6: validate_input processes the schema in order and rejects bad input
naming the offending field: a record missing any required field is never
accepted; when the fields before f all hold values of their declared type
and f is absent, the error is MissingFieldError naming f ("Missing
required field: f"); when they all hold typed values and f holds a
non-numeric string for a float field, the error is the type-coercion
error naming f ("Field f must be a number"); and a record providing a
coercible value for every required field is accepted. -/
theorem C6_validation_errors :
    (∀ (required : List (String × String)) (data : List (String × Value))
        (f t : String), (f, t) ∈ required → lookupField data f = none →
      ∃ e, BasePredictor.validate_input required data = .error e) ∧
    (∀ (pre post : List (String × String)) (f t : String)
        (data : List (String × Value)),
      (∀ p ∈ pre, ∃ v, lookupField data p.1 = some v ∧ typeMatches p.2 v = true) →
      lookupField data f = none →
      BasePredictor.validate_input (pre ++ (f, t) :: post) data =
        .error (.missingField f)) ∧
    (∀ (pre post : List (String × String)) (f s : String)
        (data : List (String × Value)),
      (∀ p ∈ pre, ∃ v, lookupField data p.1 = some v ∧ typeMatches p.2 v = true) →
      lookupField data f = some (.vStr s) → parseFloat s = none →
      BasePredictor.validate_input (pre ++ (f, "float") :: post) data =
        .error (.mustBeNumber f)) ∧
    (∀ (required : List (String × String)) (data : List (String × Value)),
      (required.map Prod.fst).Nodup →
      (∀ p ∈ required, ∃ v, lookupField data p.1 = some v ∧
        coercibleValue p.2 v = true) →
      ∃ d2, BasePredictor.validate_input required data = .ok d2) :=
  ⟨fun required data f t hmem hnone =>
      validate_missing_isError required data f t hmem hnone,
   fun pre post f t data hpre hnone =>
      validate_missing_first pre post f t data hpre hnone,
   fun pre post f s data hpre hsome hparse =>
      validate_float_coercion_first pre post f s data hpre hsome hparse,
   fun required data hnd hall => validate_all_coercible required data hnd hall⟩

/-- Closed instance of C6_validation_errors: the registered cardiac
schema rejects the scenario record naming the first absent field, a
non-numeric string for a float field is rejected naming that field, and a
fully provided coercible record is accepted. -/
theorem C6_validation_errors_witness :
    BasePredictor.validate_input [("age", "int"), ("sex", "int")]
        [("age", Value.vInt 70)] = .error (.missingField "sex") ∧
    BasePredictor.validate_input [("cholesterol", "float")]
        [("cholesterol", Value.vStr "high")] =
      .error (.mustBeNumber "cholesterol") ∧
    ∃ d2, BasePredictor.validate_input [("age", "int")] [("age", Value.vInt 70)] =
      .ok d2 :=
  ⟨C6_validation_errors.2.1 [("age", "int")] [] "sex" "int"
      [("age", Value.vInt 70)]
      (by
        intro p hp
        simp only [List.mem_singleton] at hp
        subst hp
        exact ⟨Value.vInt 70, rfl, rfl⟩)
      rfl,
   C6_validation_errors.2.2.1 [] [] "cholesterol" "high"
      [("cholesterol", Value.vStr "high")]
      (by intro p hp; exact absurd hp (List.not_mem_nil p))
      rfl rfl,
   C6_validation_errors.2.2.2 [("age", "int")] [("age", Value.vInt 70)]
      (by simp)
      (by
        intro p hp
        simp only [List.mem_singleton] at hp
        subst hp
        exact ⟨Value.vInt 70, rfl, rfl⟩)⟩

/-- C7 counterexample: validate_input writes coerced values back into the
caller's record — validating the record with the string "70" for the float
field age returns the record with age replaced by the float 70, not the
record that was passed in. -/
theorem C7_validation_mutates :
    BasePredictor.validate_input [("age", "float")] [("age", Value.vStr "70")] =
      .ok [("age", Value.vFloat 70)] ∧
    ([("age", Value.vFloat 70)] : List (String × Value)) ≠
      [("age", Value.vStr "70")] := by
  constructor
  · rfl
  · intro h
    have := congrArg (fun l => lookupField l "age") h
    simp [lookupField] at this

/-- C7 amended: validate_input leaves the caller's record unchanged only
when every supplied required value already has its declared primitive
type (the isinstance checks pass, so no write-back happens; the call then
accepts the record as is, or rejects a missing field before any
mutation).  When a coercion fires, the coerced value is written back into
the caller's record, as the counterexample shows. -/
theorem C7_validation_pure_when_typed (required : List (String × String)) :
    ∀ (data : List (String × Value)),
      (∀ p ∈ required, ∀ v, lookupField data p.1 = some v →
        typeMatches p.2 v = true) →
      (BasePredictor.validate_input required data = .ok data ∨
        ∃ f, BasePredictor.validate_input required data =
          .error (.missingField f)) := by
  induction required with
  | nil =>
    intro data _
    exact Or.inl rfl
  | cons q rest ih =>
    obtain ⟨g, u⟩ := q
    intro data hall
    cases hg : lookupField data g with
    | none =>
      exact Or.inr ⟨g, by simp only [BasePredictor.validate_input, hg]⟩
    | some v =>
      have hm := hall (g, u) (List.mem_cons_self _ _) v hg
      simp only [BasePredictor.validate_input, hg, typeMatches_keep u v hm]
      exact ih data (fun p hp => hall p (List.mem_cons_of_mem _ hp))

/-- Closed instance of C7_validation_pure_when_typed: an already typed
record passes through validation unchanged. -/
theorem C7_validation_pure_when_typed_witness :
    BasePredictor.validate_input [("age", "float")] [("age", Value.vInt 70)] =
      .ok [("age", Value.vInt 70)] ∨
    ∃ f, BasePredictor.validate_input [("age", "float")]
        [("age", Value.vInt 70)] = .error (.missingField f) :=
  C7_validation_pure_when_typed [("age", "float")] [("age", Value.vInt 70)]
    (by
      intro p hp v hv
      simp only [List.mem_singleton] at hp
      subst hp
      rw [show lookupField [("age", Value.vInt 70)] "age" =
          some (Value.vInt 70) from rfl] at hv
      cases hv
      rfl)

/-- C8: a failure raised by the optional factor-analysis stage is caught
inside make_prediction — the response still carries the core assessment
(risk score, level, recommendations, confidence of the predictor result)
and records the failure in the analysis_error marker instead of failing
the call. -/
theorem C8_analysis_isolation (pt : String)
    (result : BasePredictor.PredictResult) (msg : String) :
    (App.make_prediction pt result true true (.error msg)).risk_score =
      result.risk_score ∧
    (App.make_prediction pt result true true (.error msg)).risk_level =
      result.risk_level ∧
    (App.make_prediction pt result true true (.error msg)).recommendations =
      result.recommendations ∧
    (App.make_prediction pt result true true (.error msg)).confidence =
      result.confidence ∧
    (App.make_prediction pt result true true (.error msg)).analysis_error =
      some ("Enhanced analysis failed: " ++ msg) ∧
    (App.make_prediction pt result true true (.error msg)).detailed_analysis =
      none := by
  unfold App.make_prediction
  simp

/-- C9 counterexample: the cardiac predictor the app registers (the
predictors package's HeartDiseasePredictor, which shadows the flat
predictors.py module) rejects the five-field scenario record — its
validate_input raises "Missing required field: sex" before any scoring
runs, so the assessment does not succeed as claimed. -/
theorem C9_cardiac_scenario_rejected :
    HeartDiseasePredictor.predict 0.5 0 cardiacScenarioRecord =
      .error (.missingField "sex") ∧
    ValidationError.message (.missingField "sex") =
      "Missing required field: sex" := by
  constructor
  · rfl
  · rfl

/-- C9 amended: the scenario holds of the legacy flat-module cardiac
predictor (predictors.py HeartDiseasePredictor.predict), whose schema the
scenario record matches: risk score 1.0 (≥ 0.8), level Very High, a
smoking-cessation recommendation, confidence 0.85 within [0.60, 0.95]. -/
theorem C9_cardiac_scenario_flat :
    (Flat.HeartDiseasePredictor.predict cardiacScenarioRecord).risk_score = 1 ∧
    (0.8 : ℚ) ≤ (Flat.HeartDiseasePredictor.predict cardiacScenarioRecord).risk_score ∧
    (Flat.HeartDiseasePredictor.predict cardiacScenarioRecord).risk_level =
      "Very High" ∧
    "Quit smoking immediately" ∈
      (Flat.HeartDiseasePredictor.predict cardiacScenarioRecord).recommendations ∧
    (Flat.HeartDiseasePredictor.predict cardiacScenarioRecord).confidence = 0.85 ∧
    (0.60 : ℚ) ≤ (Flat.HeartDiseasePredictor.predict cardiacScenarioRecord).confidence ∧
    (Flat.HeartDiseasePredictor.predict cardiacScenarioRecord).confidence ≤ 0.95 := by
  have hround : pyRound3 1 = 1 := by
    norm_num [pyRound3, roundHalfEven, ratFloorI, Int.fdiv]
  have hP : Flat.HeartDiseasePredictor.predict cardiacScenarioRecord =
      { risk_score := pyRound3 1
        risk_level := Flat.calculate_risk_level 1
        recommendations :=
          ["Consider cholesterol-lowering medication",
           "Monitor blood pressure regularly", "Quit smoking immediately",
           "Regular exercise and healthy diet"]
        confidence := 0.85 } := by
    norm_num [Flat.HeartDiseasePredictor.predict, pyGetNum, pyGet, pyNum,
      pyTruthy, min_def, Flat.HeartResult.mk.injEq,
      show lookupField cardiacScenarioRecord "age" = some (.vInt 70) from rfl,
      show lookupField cardiacScenarioRecord "cholesterol" = some (.vInt 260) from rfl,
      show lookupField cardiacScenarioRecord "systolic_bp" = some (.vInt 150) from rfl,
      show lookupField cardiacScenarioRecord "smoking" = some (.vBool true) from rfl,
      show lookupField cardiacScenarioRecord "diabetes" = some (.vBool true) from rfl]
  rw [hP]
  refine ⟨hround, by rw [hround]; norm_num, ?_, by simp, by norm_num, by norm_num,
    by norm_num⟩
  rw [hround]
  norm_num [Flat.calculate_risk_level]

theorem providedCount_le_setField (d : List (String × Value)) (k : String)
    (v : Value) (hv : BasePredictor.nonEmptyValue v = true) :
    BasePredictor.providedCount d ≤ BasePredictor.providedCount (setField d k v) := by
  induction d with
  | nil => exact le_refl _
  | cons p rest ih =>
    show BasePredictor.providedCount (p :: rest) ≤
      BasePredictor.providedCount ((if p.1 = k then (p.1, v) else p) :: setField rest k v)
    simp only [BasePredictor.providedCount] at ih ⊢
    by_cases hpk : p.1 = k
    · rw [if_pos hpk]
      by_cases hp2 : BasePredictor.nonEmptyValue p.2 = true <;>
        simp only [List.filter_cons, hp2, hv, List.length_cons, Bool.false_eq_true,
          ite_true, ite_false] <;>
        omega
    · rw [if_neg hpk]
      by_cases hp2 : BasePredictor.nonEmptyValue p.2 = true <;>
        simp only [List.filter_cons, hp2, List.length_cons, Bool.false_eq_true,
          ite_true, ite_false] <;>
        omega

theorem providedCount_le_dictInsert (d : List (String × Value)) (k : String)
    (v : Value) (hv : BasePredictor.nonEmptyValue v = true) :
    BasePredictor.providedCount d ≤
      BasePredictor.providedCount (dictInsert d k v) := by
  unfold dictInsert
  split
  · exact providedCount_le_setField d k v hv
  · simp only [BasePredictor.providedCount, List.filter_append, List.length_append]
    simp [List.filter, hv]

theorem completeness_factor_le_dictInsert (required : List (String × String))
    (d : List (String × Value)) (k : String) (v : Value)
    (hv : BasePredictor.nonEmptyValue v = true) :
    BasePredictor.completeness_factor required d ≤
      BasePredictor.completeness_factor required (dictInsert d k v) := by
  unfold BasePredictor.completeness_factor
  rcases Nat.eq_zero_or_pos required.length with h0 | hpos
  · simp [h0]
  · have hc : (0 : ℚ) < required.length := by exact_mod_cast hpos
    refine (div_le_div_iff_of_pos_right hc).mpr ?_
    exact_mod_cast providedCount_le_dictInsert d k v hv

/-- C10: the completeness ratio of calculate_confidence counts every
non-empty value of the supplied record but divides by the number of
schema-required fields, so writing one more non-empty key into the record
(dict insert, including keys outside the schema) never decreases the
returned confidence, and the ratio itself can exceed 1.0 — here a
one-field schema with a two-field record yields completeness 2. -/
theorem C10_confidence_extra_fields :
    (∀ (required : List (String × String)) (data : List (String × Value))
        (score : ℚ) (factors : List BasePredictor.RiskFactor) (k : String)
        (v : Value), BasePredictor.nonEmptyValue v = true →
      BasePredictor.calculate_confidence required data score factors ≤
        BasePredictor.calculate_confidence required (dictInsert data k v) score
          factors) ∧
    BasePredictor.completeness_factor [("a", "float")]
        [("a", Value.vInt 1), ("b", Value.vInt 2)] = 2 ∧
    (1 : ℚ) < BasePredictor.completeness_factor [("a", "float")]
        [("a", Value.vInt 1), ("b", Value.vInt 2)] := by
  refine ⟨?_, ?_, ?_⟩
  · intro required data score factors k v hv
    unfold BasePredictor.calculate_confidence
    dsimp only
    have hcf := completeness_factor_le_dictInsert required data k v hv
    refine min_le_min (le_refl _) (max_le_max (le_refl _) ?_)
    nlinarith [hcf]
  · norm_num [BasePredictor.completeness_factor, BasePredictor.providedCount,
      BasePredictor.nonEmptyValue, List.filter,
      show decide (Value.vInt 1 = Value.vStr "") = false from rfl,
      show decide (Value.vInt 2 = Value.vStr "") = false from rfl]
  · norm_num [BasePredictor.completeness_factor, BasePredictor.providedCount,
      BasePredictor.nonEmptyValue, List.filter,
      show decide (Value.vInt 1 = Value.vStr "") = false from rfl,
      show decide (Value.vInt 2 = Value.vStr "") = false from rfl]

/-- Closed instance of C10_confidence_extra_fields: inserting one extra
non-empty key into a concrete record does not decrease the confidence. -/
theorem C10_confidence_extra_fields_witness :
    BasePredictor.calculate_confidence [("a", "float")] [("a", Value.vInt 1)]
        0.5 [] ≤
      BasePredictor.calculate_confidence [("a", "float")]
        (dictInsert [("a", Value.vInt 1)] "extra" (Value.vInt 7)) 0.5 [] :=
  C10_confidence_extra_fields.1 [("a", "float")] [("a", Value.vInt 1)] 0.5 []
    "extra" (Value.vInt 7) rfl

/-- C1: for every domain configuration and every record that validation
accepts, the risk score of the returned assessment lies in [0, 1] — the
max/min clamp in predict is applied before any downstream use — and the
returned confidence lies in [0.60, 0.95] by the final clamp of
calculate_confidence. -/
theorem C1_predict_bounds (required descriptions : List (String × String))
    (name : String) (contrib : String → Value → ℚ → ℚ)
    (explainF : String → Value → String)
    (preprocess : List (String × Value) → List ℚ) (modelOut noise : ℚ)
    (data : List (String × Value)) (r : BasePredictor.PredictResult)
    (h : BasePredictor.predict required descriptions name contrib explainF
        preprocess modelOut noise data = .ok r) :
    0 ≤ r.risk_score ∧ r.risk_score ≤ 1 ∧
      0.60 ≤ r.confidence ∧ r.confidence ≤ 0.95 := by
  unfold BasePredictor.predict at h
  cases hval : BasePredictor.validate_input required data with
  | error e =>
    rw [hval] at h
    cases h
  | ok data1 =>
    rw [hval] at h
    injection h with h
    subst h
    refine ⟨?_, ?_, ?_, ?_⟩
    · show (0 : ℚ) ≤ max 0.0 (min 1.0 modelOut)
      exact le_trans (by norm_num) (le_max_left (0.0 : ℚ) _)
    · show max 0.0 (min 1.0 modelOut) ≤ 1
      exact max_le (by norm_num) (le_trans (min_le_left _ _) (by norm_num))
    · show (0.60 : ℚ) ≤ min 0.95 (max 0.60 _)
      exact le_min (by norm_num) (le_max_left _ _)
    · show min (0.95 : ℚ) (max 0.60 _) ≤ 0.95
      exact min_le_left _ _

/-- Closed instance of C1_predict_bounds: the bounds hold on the concrete
end-to-end cardiac run. -/
theorem C1_predict_bounds_witness :
    0 ≤ (cardiacRun.toOption.getD default).risk_score ∧
      (cardiacRun.toOption.getD default).risk_score ≤ 1 ∧
      0.60 ≤ (cardiacRun.toOption.getD default).confidence ∧
      (cardiacRun.toOption.getD default).confidence ≤ 0.95 :=
  C1_predict_bounds HeartDiseasePredictor.get_required_fields
    HeartDiseasePredictor.get_field_descriptions "Heart Disease Risk Predictor"
    BasePredictor.calculate_field_risk_contribution
    BasePredictor.explain_field_risk HeartDiseasePredictor.preprocess_data
    0.7 0 cardiacFullRecord (cardiacRun.toOption.getD default) rfl
